import Mathlib

/-!
Verification of the Destiny-Cards checkout repository's order-to-CRM
synchronization logic.

Shallow embedding conventions:
* Monetary amounts are rationals (the JS code divides a minor-unit integer
  amount by 100 and carries floats; amounts in this system are exact
  multiples of a cent, where toFixed(2) is exact).
* A CRM custom-field content string is modelled semantically by `Content`:
  `Content.num q` stands for a string that parseFloat parses as the decimal
  q, `Content.str s` for any other (non-numeric) string s, `Content.empty`
  for an absent field or empty content.  JS truthiness of a content string
  (non-empty) becomes `Content.truthy`.
* Provider HTTP calls that the claims treat as succeeding are modelled as
  pure state transitions on a `Crm` state.  The claims about error paths
  (C7, C8) are modelled with explicit response values / Except results.
* Dates only occur as opaque formatted strings, collected in `DateStr`
  (toLocaleDateString short form, toISOString date part, long month/year).
-/

/-- JS toFixed(2) on an amount, as a rational: round to cent precision. -/
def jsToFixed2 (q : ℚ) : ℚ := ((round (q * 100) : ℤ) : ℚ) / 100

/-- Left-pad a two-digit cents remainder, as in decimal rendering. -/
def pad2 (n : ℤ) : String := if n < 10 then "0" ++ toString n else toString n

/-- Decimal string for an integer number of cents (used for amounts that
only occur opaquely inside history-entry strings). -/
def centsToDecimalString (c : ℤ) : String :=
  toString (c / 100) ++ "." ++ pad2 (c % 100)

/-- JS amountPaid.toFixed(2) as a string. -/
def jsToFixed2Str (q : ℚ) : String := centsToDecimalString (round (q * 100))

/-- An amount representable exactly in cents (every amount in the system is
`session.amount_total / 100` with an integer minor-unit total). -/
def isCents (q : ℚ) : Prop := ∃ n : ℤ, q = (n : ℚ) / 100

/-- Semantic model of a CRM custom-field content string. -/
inductive Content where
  | empty : Content
  | str : String → Content
  | num : ℚ → Content
deriving DecidableEq, Repr

/-- JS truthiness of a custom field's content (`!!field?.content`):
false for an absent field or empty string, true otherwise. -/
def Content.truthy : Content → Bool
  | .empty => false
  | .str s => s != ""
  | .num _ => true

/-- JS `parseFloat(content) || 0`: the parsed decimal, 0 on parse failure
or absence. -/
def Content.parseFloatD : Content → ℚ
  | .num q => q
  | _ => 0

/-- The underlying string of a content value (string interpolation). -/
def Content.asString : Content → String
  | .empty => ""
  | .str s => s
  | .num q => jsToFixed2Str q

/-- Structured postal address of an Order Record. -/
structure Address where
  line1 : String
  line2 : String
  city : String
  state : String
  postalCode : String
  country : String
deriving DecidableEq, Repr

/-- One cart item from the checkout metadata. -/
structure CartItem where
  productId : String
  productName : String
  productPrice : ℚ
  quantity : ℕ
deriving DecidableEq, Repr

/-- Opaque formatted renderings of one date value. -/
structure DateStr where
  short : String
  iso : String
  monthYear : String
deriving DecidableEq, Repr

/-- A CRM contact (custom fields as a semantic map from numeric field id
to content; applied tags tracked by tag name, since tag ids are obtained
from names via get-or-create). -/
structure Contact where
  id : ℕ
  email : String
  givenName : String
  familyName : String
  customFields : ℕ → Content
  tags : List String

/-- The CRM provider's state: contacts, the global tag registry (by name),
and the id the next created contact receives. -/
structure Crm where
  contacts : List Contact
  tagNames : List String
  nextContactId : ℕ

/-- Contact search by email: the API returns matches and the code uses
`data.contacts?.[0] || null`, i.e. the first match. -/
def findContact (crm : Crm) (email : String) : Option Contact :=
  crm.contacts.find? (fun c => c.email == email)

/-- Apply a custom-field update payload to a contact's fields (the CRM
PATCH upserts the listed field ids and leaves all others unchanged). -/
def applyFields (upds : List (ℕ × Content)) (old : ℕ → Content) : ℕ → Content :=
  fun i =>
    match upds.find? (fun p => p.1 == i) with
    | some p => p.2
    | none => old i

/-- Lookup of one field id in an update payload
(`customFields.find(f => f.id === i)`). -/
def lookupField (fs : List (ℕ × Content)) (i : ℕ) : Option Content :=
  (fs.find? (fun p => p.1 == i)).map (fun p => p.2)

/-- PATCH of a contact carrying names, email and custom fields (the shape
of the sync engines' contactPayload). -/
def updateContactFull (crm : Crm) (cid : ℕ) (given family email : String)
    (fields : List (ℕ × Content)) : Crm :=
  { crm with
    contacts := crm.contacts.map fun c =>
      if c.id == cid then
        { c with givenName := given, familyName := family, email := email,
                 customFields := applyFields fields c.customFields }
      else c }

/-- PATCH of a contact carrying only custom fields (the shape of the
tracking-update payload). -/
def updateContactFields (crm : Crm) (cid : ℕ) (fields : List (ℕ × Content)) : Crm :=
  { crm with
    contacts := crm.contacts.map fun c =>
      if c.id == cid then { c with customFields := applyFields fields c.customFields }
      else c }

/-- POST of a new contact; the provider assigns the next id. -/
def createContact (crm : Crm) (given family email : String)
    (fields : List (ℕ × Content)) : Crm × ℕ :=
  ({ crm with
     contacts := crm.contacts ++
       [{ id := crm.nextContactId, email := email, givenName := given,
          familyName := family, customFields := applyFields fields (fun _ => .empty),
          tags := [] }],
     nextContactId := crm.nextContactId + 1 },
   crm.nextContactId)

/-- getOrCreateTag at the state level: ensure the tag exists in the global
registry (search by name, create when absent). -/
def getOrCreateTagName (crm : Crm) (name : String) : Crm :=
  if name ∈ crm.tagNames then crm
  else { crm with tagNames := crm.tagNames ++ [name] }

/-- Apply one tag (by name) to a contact. -/
def applyTagToContactName (crm : Crm) (cid : ℕ) (name : String) : Crm :=
  { crm with
    contacts := crm.contacts.map fun c =>
      if c.id == cid then
        (if name ∈ c.tags then c else { c with tags := c.tags ++ [name] })
      else c }

/-- The sync engines' tag loop: for each tag name, get-or-create it and
apply it to the contact. -/
def applyTags (crm : Crm) (cid : ℕ) (names : List String) : Crm :=
  names.foldl (fun s n => applyTagToContactName (getOrCreateTagName s n) cid n) crm

/-! ### Shared order-record derived values (identical in both sync copies) -/

/-- Order summary: newline-joined quantity-times-name lines. -/
def orderSummaryOf (items : List CartItem) : String :=
  String.intercalate "\n" (items.map fun it => toString it.quantity ++ "x " ++ it.productName)

/-- Total item price: sum of productPrice * quantity. -/
def totalPriceOf (items : List CartItem) : ℚ :=
  items.foldl (fun sum it => sum + it.productPrice * (it.quantity : ℚ)) 0

/-- Comma-joined product ids. -/
def productIdsOf (items : List CartItem) : String :=
  String.intercalate ", " (items.map fun it => it.productId)

/-- Formatted shipping address, or the fixed sentinel when absent. -/
def formatShippingAddress : Option Address → String
  | some a =>
      a.line1 ++ (if a.line2 != "" then "\n" ++ a.line2 else "") ++ "\n" ++
      a.city ++ ", " ++ a.state ++ " " ++ a.postalCode ++ "\n" ++ a.country
  | none => "Not provided"

/-- Per-item product tags: two known product ids map to known tags, any
other product id contributes no tag. -/
def productTagsOf (items : List CartItem) : List String :=
  items.flatMap fun it =>
    if it.productId = "cards-only" then ["Destiny Cards - Cards Only"]
    else if it.productId = "cards-book-bundle" then ["Destiny Cards - Cards + Book Bundle"]
    else []

/-! ### The webhook sync engine (stripe-webhook.js, integrateWithKeap) -/

/-- Payload handed to the webhook's integrateWithKeap. -/
structure KeapData where
  firstName : String
  lastName : String
  email : String
  emailConsent : Bool
  cartItems : List CartItem
  shippingAddress : Option Address
  paymentId : String
  amountPaid : ℚ
  hasPreOrder : Bool

/-- History-entry separator used when prepending to existing history. -/
def historySep : String := "\n---\n"

/-- This order's history entry in the webhook engine:
date, summary and amount formatted to two decimals. -/
def orderEntry (now : DateStr) (d : KeapData) : String :=
  now.short ++ ": " ++ orderSummaryOf d.cartItems ++ " ($" ++ jsToFixed2Str d.amountPaid ++ ")"

/-- Merged order history: the new entry prepended (separator-joined) to
truthy existing history, else the new entry alone. -/
def webhookMergedHistory (now : DateStr) (d : KeapData) (existing : Option Contact) : String :=
  match existing with
  | none => orderEntry now d
  | some c =>
      if (c.customFields 325).truthy then
        orderEntry now d ++ historySep ++ (c.customFields 325).asString
      else orderEntry now d

/-- Merged total spent: truthy existing total parsed (default 0) plus this
order's amountPaid, else amountPaid alone. -/
def webhookMergedTotal (d : KeapData) (existing : Option Contact) : ℚ :=
  match existing with
  | none => d.amountPaid
  | some c =>
      if (c.customFields 327).truthy then
        (c.customFields 327).parseFloatD + d.amountPaid
      else d.amountPaid

/-- Custom-field payload written by the webhook engine (field ids
303..327 as in the source). -/
def webhookCustomFields (now : DateStr) (d : KeapData) (existing : Option Contact) :
    List (ℕ × Content) :=
  [ (303, .str (productIdsOf d.cartItems)),
    (305, .str (orderSummaryOf d.cartItems)),
    (307, .num (totalPriceOf d.cartItems)),
    (309, .str (formatShippingAddress d.shippingAddress)),
    (311, .str d.paymentId),
    (313, .str now.iso),
    (323, .str (if d.hasPreOrder then "Yes" else "No")),
    (325, .str (webhookMergedHistory now d existing)),
    (327, .num (jsToFixed2 (webhookMergedTotal d existing))) ]

/-- Tag set computed by the webhook engine: three base tags, repeat
customer when returning, per-item product tags, two pre-order tags, and a
month/year tag from the (sync-time = order) date. -/
def webhookTags (isReturning : Bool) (items : List CartItem) (hasPreOrder : Bool)
    (now : DateStr) : List String :=
  [ "Destiny Cards - Order Received",
    "Destiny Cards - 1st Edition",
    "Destiny Cards - Awaiting Shipment" ]
  ++ (if isReturning then ["Destiny Cards - Repeat Customer"] else [])
  ++ productTagsOf items
  ++ (if hasPreOrder then
        [ "Destiny Cards - Pre-Order (Book Ships March 2026)",
          "Destiny Cards - Pending Book Shipment" ]
      else [])
  ++ [ "Destiny Cards - " ++ now.monthYear ]

/-- The webhook sync engine (success model of integrateWithKeap in
stripe-webhook.js): find contact, merge history/total, create-or-update,
apply tags.  Returns the updated CRM state and the contact id. -/
def integrateWithKeap (now : DateStr) (d : KeapData) (crm : Crm) : Crm × ℕ :=
  let existing := findContact crm d.email
  let isReturning := existing.isSome
  let fields := webhookCustomFields now d existing
  let step :=
    match existing with
    | some c => (updateContactFull crm c.id d.firstName d.lastName d.email fields, c.id)
    | none => createContact crm d.firstName d.lastName d.email fields
  (applyTags step.1 step.2 (webhookTags isReturning d.cartItems d.hasPreOrder now), step.2)

/-- A sequence of webhook syncs (successive orders processed in order). -/
def syncSeq (now : DateStr) (crm : Crm) (ds : List KeapData) : Crm :=
  ds.foldl (fun s d => (integrateWithKeap now d s).1) crm

/-! ### The backfill sync copy (backfill-keap.js, syncToKeap) -/

/-- Order Record built by the backfill from a checkout session. -/
structure OrderData where
  sessionId : String
  email : String
  name : String
  shippingAddress : Option Address
  cartItems : List CartItem
  hasPreOrder : Bool
  amountPaid : ℚ
  paymentId : String
  created : DateStr

/-- JS String.replace with a string pattern: replaces only the first
occurrence. -/
def replaceFirst (s pat rep : String) : String :=
  match s.splitOn pat with
  | [] => s
  | [_] => s
  | x :: rest => x ++ rep ++ String.intercalate pat rest

/-- The backfill's history entry (order date, summary with only the first
newline turned into a comma, amount). -/
def backfillEntry (o : OrderData) : String :=
  o.created.short ++ ": " ++ replaceFirst (orderSummaryOf o.cartItems) "\n" ", " ++
  " ($" ++ jsToFixed2Str o.amountPaid ++ ")"

/-- Custom-field payload written by the backfill's syncToKeap.  Note:
ORDER_HISTORY (325) is set to this order's entry alone and TOTAL_SPENT
(327) to this order's amountPaid alone - no merge with existing values. -/
def backfillCustomFields (o : OrderData) : List (ℕ × Content) :=
  [ (303, .str (productIdsOf o.cartItems)),
    (305, .str (orderSummaryOf o.cartItems)),
    (307, .num (totalPriceOf o.cartItems)),
    (309, .str (formatShippingAddress o.shippingAddress)),
    (311, .str o.paymentId),
    (313, .str o.created.iso),
    (323, .str (if o.hasPreOrder then "Yes" else "No")),
    (325, .str (backfillEntry o)),
    (327, .num (jsToFixed2 o.amountPaid)) ]

/-- Tag set computed by the backfill's syncToKeap: base tags, product
tags, pre-order tags and the month/year tag from the order's created date.
There is no repeat-customer tag on this path. -/
def backfillTags (o : OrderData) : List String :=
  [ "Destiny Cards - Order Received",
    "Destiny Cards - 1st Edition",
    "Destiny Cards - Awaiting Shipment" ]
  ++ productTagsOf o.cartItems
  ++ (if o.hasPreOrder then
        [ "Destiny Cards - Pre-Order (Book Ships March 2026)",
          "Destiny Cards - Pending Book Shipment" ]
      else [])
  ++ [ "Destiny Cards - " ++ o.created.monthYear ]

/-- First-space name split: first token is the given name, the rest the
family name. -/
def splitName (name : String) : String × String :=
  let parts := name.splitOn " "
  (parts.headD "", String.intercalate " " parts.tail)

/-- The backfill's sync copy (success model of syncToKeap in
backfill-keap.js).  Same create-or-update flow as the webhook engine but
with overwrite semantics for history/total and no repeat-customer tag. -/
def syncToKeap (o : OrderData) (_emailConsent : Bool) (crm : Crm) : Crm × ℕ :=
  let fields := backfillCustomFields o
  let np := splitName o.name
  let step :=
    match findContact crm o.email with
    | some c => (updateContactFull crm c.id np.1 np.2 o.email fields, c.id)
    | none => createContact crm np.1 np.2 o.email fields
  (applyTags step.1 step.2 (backfillTags o), step.2)

/-! ### The backfill driver (backfill-keap.js handler) -/

/-- The parsed request body's dryRun value: the JSON literal false, the
literal true, an absent key, or any other JSON value. -/
inductive DryRunVal where
  | jfalse : DryRunVal
  | jtrue : DryRunVal
  | absent : DryRunVal
  | other : DryRunVal
deriving DecidableEq, Repr

/-- `options.dryRun !== false`: dry run unless the body carries the
literal false. -/
def decideDryRun : DryRunVal → Bool
  | .jfalse => false
  | _ => true

/-- A completed checkout session as seen by the backfill, together with
environment flags standing for thrown provider errors: `retrieveFails`
models the full-session retrieve throwing, `syncFails` models syncToKeap
throwing (its partial CRM effects are not modelled; only the report
bookkeeping of a failure is). -/
structure StripeSession where
  id : String
  customerEmail : Option String
  customerName : String
  shippingAddress : Option Address
  collectedShippingAddress : Option Address
  metadataCart : Option (List CartItem)
  metadataHasPreOrder : Bool
  metadataEmailConsent : Bool
  amountTotal : ℤ
  paymentIntent : String
  created : DateStr
  retrieveFails : Bool
  syncFails : Bool

/-- Idempotency guard: the contact has order data iff the PAYMENT_ID
custom field (311) has truthy content. -/
def hasExistingOrderData (c : Contact) : Bool :=
  (c.customFields 311).truthy

/-- The Order Record the backfill builds from a session (cart metadata
parse failure yields an empty cart and hasPreOrder false; amountPaid is
the minor-unit total divided by 100). -/
def buildOrderData (s : StripeSession) (email : String) : OrderData :=
  { sessionId := s.id,
    email := email,
    name := s.customerName,
    shippingAddress := s.shippingAddress.orElse (fun _ => s.collectedShippingAddress),
    cartItems := s.metadataCart.getD [],
    hasPreOrder := match s.metadataCart with
      | some _ => s.metadataHasPreOrder
      | none => false,
    amountPaid := (s.amountTotal : ℚ) / 100,
    paymentId := s.paymentIntent,
    created := s.created }

/-- The backfill's running report. -/
structure BackfillResults where
  processed : ℕ
  synced : ℕ
  skipped : ℕ
  errors : List String
  details : List (String × String)
deriving DecidableEq, Repr

/-- The empty report the handler starts from. -/
def initialResults : BackfillResults :=
  { processed := 0, synced := 0, skipped := 0, errors := [], details := [] }

/-- One iteration of the backfill loop: increment processed, then either
record an error (a throw inside the per-session try), skip (no email, or
contact already has order data), record a would-sync (dry run), or
actually sync. -/
def processSession (dryRun : Bool) (st : Crm × BackfillResults) (s : StripeSession) :
    Crm × BackfillResults :=
  let crm := st.1
  let r := { st.2 with processed := st.2.processed + 1 }
  if s.retrieveFails then
    (crm, { r with errors := r.errors ++ [s.id] })
  else
    match s.customerEmail with
    | none =>
        (crm, { r with skipped := r.skipped + 1,
                       details := r.details ++ [(s.id, "skipped")] })
    | some email =>
        let existingContact := findContact crm email
        let hasOrderData :=
          match existingContact with
          | some c => hasExistingOrderData c
          | none => false
        if hasOrderData then
          (crm, { r with skipped := r.skipped + 1,
                         details := r.details ++ [(s.id, "skipped")] })
        else
          if dryRun then
            (crm, { r with synced := r.synced + 1,
                           details := r.details ++ [(s.id, "would_sync")] })
          else if s.syncFails then
            (crm, { r with errors := r.errors ++ [s.id] })
          else
            let res := syncToKeap (buildOrderData s email) s.metadataEmailConsent crm
            (res.1, { r with synced := r.synced + 1,
                             details := r.details ++ [(s.id, "synced")] })

/-- The whole backfill run over the listed completed sessions. -/
def runBackfill (dryRunVal : DryRunVal) (sessions : List StripeSession) (crm : Crm) :
    Crm × BackfillResults :=
  sessions.foldl (processSession (decideDryRun dryRunVal)) (crm, initialResults)

/-! ### Fulfillment status (get-orders.js / check-fulfillment.js) -/

/-- Fulfillment info read back from the CRM: found flag, shipped flags
(tracking content truthy) and the tracking numbers. -/
structure FulfillmentInfo where
  found : Bool
  cardsShipped : Bool
  bookShipped : Bool
  cardsTrackingNumber : Option String
  bookTrackingNumber : Option String

/-- Tracking content as returned to the caller (`content || null`). -/
def contentOrNull (c : Content) : Option String :=
  if c.truthy then some c.asString else none

/-- getKeapFulfillmentStatus: look up the contact; a leg is shipped iff
its tracking-number field (315 cards, 319 book) has truthy content. -/
def getKeapFulfillmentStatus (crm : Crm) (email : String) : FulfillmentInfo :=
  match findContact crm email with
  | none =>
      { found := false, cardsShipped := false, bookShipped := false,
        cardsTrackingNumber := none, bookTrackingNumber := none }
  | some c =>
      { found := true,
        cardsShipped := (c.customFields 315).truthy,
        bookShipped := (c.customFields 319).truthy,
        cardsTrackingNumber := contentOrNull (c.customFields 315),
        bookTrackingNumber := contentOrNull (c.customFields 319) }

/-- Overall fulfillment status derivation of the orders-listing handler:
pending by default; for pre-order bundles, fulfilled once both legs
shipped and partial when only cards shipped; otherwise fulfilled once
cards shipped. -/
def fulfillmentStatus (hasPreOrder cardsShipped bookShipped : Bool) : String :=
  if hasPreOrder then
    if cardsShipped && bookShipped then "fulfilled"
    else if cardsShipped then "partial"
    else "pending"
  else
    if cardsShipped then "fulfilled"
    else "pending"

/-! ### Tracking update (update-tracking.js) -/

/-- Leg-specific custom-field payload of the tracking update: tracking
number and shipped date of the requested leg only (cards: 315/317, book:
319/321). -/
def trackingCustomFields (shipmentType trackingNumber today : String) :
    List (ℕ × Content) :=
  if shipmentType = "cards" then
    [ (315, .str trackingNumber), (317, .str today) ]
  else
    [ (319, .str trackingNumber), (321, .str today) ]

/-- Remove one tag (by name) from a contact. -/
def removeTagFromContactName (crm : Crm) (cid : ℕ) (name : String) : Crm :=
  { crm with
    contacts := crm.contacts.map fun c =>
      if c.id == cid then { c with tags := c.tags.erase name } else c }

/-- updateTrackingInKeap (success model for the provider calls that do
happen): find the contact (not-found throws before any write), PATCH the
leg's two fields, then best-effort apply the shipped tag and remove the
awaiting tag (removal skipped when the awaiting tag does not exist).
Returns the result and the final CRM state. -/
def updateTrackingInKeap (crm : Crm) (today email trackingNumber shipmentType : String) :
    Except String ℕ × Crm :=
  match findContact crm email with
  | none => (.error ("No contact found with email: " ++ email), crm)
  | some c =>
      let crm1 := updateContactFields crm c.id
        (trackingCustomFields shipmentType trackingNumber today)
      let shippedTagName :=
        if shipmentType = "cards" then "Destiny Cards - Cards Shipped"
        else "Destiny Cards - Book Shipped"
      let awaitingTagName :=
        if shipmentType = "cards" then "Destiny Cards - Awaiting Shipment"
        else "Destiny Cards - Pending Book Shipment"
      let crm2 := applyTags crm1 c.id [shippedTagName]
      let crm3 :=
        if awaitingTagName ∈ crm2.tagNames then
          removeTagFromContactName crm2 c.id awaitingTagName
        else crm2
      (.ok c.id, crm3)

/-! ### HTTP-level error behavior (for the error-handling claims) -/

/-- `response.ok`: HTTP status in the 2xx range. -/
def httpOk (status : ℕ) : Bool := 200 ≤ status && status < 300

/-- One response of the contact-search endpoint. -/
structure ContactSearchResp where
  status : ℕ
  contacts : List Contact

/-- The backfill's findKeapContact over a stream of responses (the list
supplies the successive responses seen across 429 retries): on a 2xx the
first contact or null, on a 429 retry with the next response, and on any
other non-2xx status it returns null (it does NOT throw).  The outer
`none` means the retry stream was exhausted. -/
def findKeapContactHttp : List ContactSearchResp → Option (Option Contact)
  | [] => none
  | r :: rest =>
      if httpOk r.status then some r.contacts.head?
      else if r.status = 429 then findKeapContactHttp rest
      else some none

/-- One response of the tag-search endpoint. -/
structure TagSearchResp where
  status : ℕ
  tags : List (ℕ × String)
deriving DecidableEq, Repr

/-- One response of the tag-creation endpoint. -/
structure TagCreateResp where
  status : ℕ
  newId : ℕ
deriving DecidableEq, Repr

/-- The webhook file's getOrCreateTag at the HTTP level: a non-2xx search
response throws an error carrying the status; otherwise the first found
tag's id, else create (non-2xx creation throws its status). -/
def getOrCreateTagHttp (search : TagSearchResp) (create : TagCreateResp) : Except ℕ ℕ :=
  if !httpOk search.status then .error search.status
  else
    match search.tags.head? with
    | some t => .ok t.1
    | none =>
        if !httpOk create.status then .error create.status
        else .ok create.newId

/-! ### Spec-side comparison definitions -/

/-- Spec-side reading of "entries joined by the separator": a history
string holding exactly the given entries, newest first. -/
def joinEntries : List String → String
  | [] => ""
  | [e] => e
  | e :: rest => e ++ historySep ++ joinEntries rest

/-- Successive prepends of new entries onto an existing history string
(the effect of repeated webhook syncs). -/
def prependEntries (h : String) (es : List String) : String :=
  es.foldl (fun acc x => x ++ historySep ++ acc) h

/-! ### Concrete inputs for witnesses and counterexamples -/

/-- A concrete date rendering. -/
def dateW : DateStr :=
  { short := "Oct 12, 2025", iso := "2025-10-12", monthYear := "October 2025" }

/-- A CRM state with no contacts. -/
def emptyCrm : Crm := { contacts := [], tagNames := [], nextContactId := 1 }

/-- The all-absent custom-field map. -/
def noFields : ℕ → Content := fun _ => Content.empty

/-- First concrete webhook order (amount 10). -/
def dW1 : KeapData :=
  { firstName := "A", lastName := "B", email := "a@x", emailConsent := true,
    cartItems := [], shippingAddress := none, paymentId := "pi_1",
    amountPaid := 10, hasPreOrder := false }

/-- Second concrete webhook order, same email, distinct payment id. -/
def dW2 : KeapData := { dW1 with paymentId := "pi_2", amountPaid := 20 }

/-- Existing contact with total spent 20 and no payment-id content. -/
def cY : Contact :=
  { id := 1, email := "b@x", givenName := "", familyName := "",
    customFields := fun i => if i = 327 then Content.num 20 else Content.empty,
    tags := [] }

/-- CRM state holding only that contact. -/
def crmY : Crm := { contacts := [cY], tagNames := [], nextContactId := 2 }

/-- Concrete backfill order for that contact's email, amount 10. -/
def oY : OrderData :=
  { sessionId := "s", email := "b@x", name := "", shippingAddress := none,
    cartItems := [], hasPreOrder := false, amountPaid := 10,
    paymentId := "pi_9", created := dateW }

/-- First concrete backfill order (amount 20). -/
def oX1 : OrderData :=
  { sessionId := "s1", email := "c@x", name := "", shippingAddress := none,
    cartItems := [], hasPreOrder := false, amountPaid := 20,
    paymentId := "pi_a", created := dateW }

/-- Second concrete backfill order, same email, distinct payment id. -/
def oX2 : OrderData := { oX1 with sessionId := "s2", paymentId := "pi_b", amountPaid := 10 }

/-- CRM state after backfill-syncing oX1 then oX2. -/
def crmX2 : Crm := (syncToKeap oX2 false (syncToKeap oX1 false emptyCrm).1).1

/-- Existing contact without any order data. -/
def cZ : Contact :=
  { id := 1, email := "d@x", givenName := "", familyName := "",
    customFields := noFields, tags := [] }

/-- CRM state holding only that contact. -/
def crmZ : Crm := { contacts := [cZ], tagNames := [], nextContactId := 2 }

/-- Concrete backfill order for that existing contact's email. -/
def oZ : OrderData :=
  { sessionId := "s", email := "d@x", name := "", shippingAddress := none,
    cartItems := [], hasPreOrder := false, amountPaid := 10,
    paymentId := "pi_z", created := dateW }

/-- Contact that already has order data (payment-id field 311 set). -/
def cP : Contact :=
  { id := 1, email := "e@x", givenName := "", familyName := "",
    customFields := fun i => if i = 311 then Content.str "pi_old" else Content.empty,
    tags := [] }

/-- CRM state holding only that contact. -/
def crmP : Crm := { contacts := [cP], tagNames := [], nextContactId := 2 }

/-- Concrete completed session for that contact's email. -/
def sessW : StripeSession :=
  { id := "cs_1", customerEmail := some "e@x", customerName := "",
    shippingAddress := none, collectedShippingAddress := none,
    metadataCart := some [], metadataHasPreOrder := false,
    metadataEmailConsent := false, amountTotal := 1000, paymentIntent := "pi_1",
    created := dateW, retrieveFails := false, syncFails := false }

/-- Concrete session for a fresh email (a would-sync candidate). -/
def sessW2 : StripeSession := { sessW with id := "cs_2", customerEmail := some "f@x" }

/-- Contact whose cards tracking field is set and book tracking empty. -/
def cT : Contact :=
  { id := 1, email := "g@x", givenName := "", familyName := "",
    customFields := fun i => if i = 315 then Content.str "TRK1" else Content.empty,
    tags := [] }

/-- CRM state holding only that contact. -/
def crmT : Crm := { contacts := [cT], tagNames := [], nextContactId := 2 }

/-! ### Helper lemmas -/

/-- Cent amounts are closed under addition. -/
lemma isCents_add {a b : ℚ} (ha : isCents a) (hb : isCents b) : isCents (a + b) := by
  obtain ⟨m, rfl⟩ := ha
  obtain ⟨n, rfl⟩ := hb
  refine ⟨m + n, ?_⟩
  push_cast
  ring

/-- toFixed(2) is the identity on cent amounts. -/
lemma jsToFixed2_cents {q : ℚ} (h : isCents q) : jsToFixed2 q = q := by
  obtain ⟨n, rfl⟩ := h
  have h100 : ((n : ℚ) / 100) * 100 = (n : ℚ) := by field_simp
  simp [jsToFixed2, h100, round_intCast]

/-- Appending onto a non-empty right part stays non-empty. -/
lemma append_ne_empty_right (a : String) {b : String} (h : b ≠ "") : a ++ b ≠ "" := by
  intro hab
  apply h
  apply String.ext
  have hd : a.data ++ b.data = [] := by
    have := congrArg String.data hab
    simpa [String.data_append] using this
  simpa using (List.append_eq_nil.mp hd).2

/-- Prepending onto a non-empty left part stays non-empty. -/
lemma append_ne_empty_left {a : String} (b : String) (h : a ≠ "") : a ++ b ≠ "" := by
  intro hab
  apply h
  apply String.ext
  have hd : a.data ++ b.data = [] := by
    have := congrArg String.data hab
    simpa [String.data_append] using this
  simpa using (List.append_eq_nil.mp hd).1

/-- A webhook history entry is never the empty string. -/
lemma orderEntry_ne_empty (now : DateStr) (d : KeapData) : orderEntry now d ≠ "" := by
  unfold orderEntry
  apply append_ne_empty_right
  decide

/-- getOrCreateTag does not touch the contact list. -/
lemma getOrCreateTagName_contacts (s : Crm) (n : String) :
    (getOrCreateTagName s n).contacts = s.contacts := by
  unfold getOrCreateTagName
  split <;> rfl

/-- The tag-application loop only changes the tags of a lone contact. -/
lemma applyTags_singleton (cid : ℕ) :
    ∀ (names : List String) (s : Crm) (c : Contact), s.contacts = [c] →
      ∃ tg, (applyTags s cid names).contacts = [{ c with tags := tg }] := by
  intro names
  induction names with
  | nil =>
      intro s c h
      exact ⟨c.tags, h⟩
  | cons n rest ih =>
      intro s c h
      have h1 : (getOrCreateTagName s n).contacts = [c] := by
        rw [getOrCreateTagName_contacts, h]
      have h2 : ∃ t2, (applyTagToContactName (getOrCreateTagName s n) cid n).contacts
          = [{ c with tags := t2 }] := by
        refine ⟨if c.id == cid then (if n ∈ c.tags then c.tags else c.tags ++ [n])
                else c.tags, ?_⟩
        simp only [applyTagToContactName, h1, List.map_cons, List.map_nil]
        cases hid : (c.id == cid) with
        | false => simp [hid]
        | true =>
            by_cases hmem : n ∈ c.tags
            · simp [hid, hmem]
            · simp [hid, hmem]
      obtain ⟨t2, h2⟩ := h2
      obtain ⟨tg, h3⟩ := ih (applyTagToContactName (getOrCreateTagName s n) cid n)
        { c with tags := t2 } h2
      exact ⟨tg, h3⟩

/-- One webhook sync against a CRM holding exactly the matching contact:
the contact is updated in place with the engine's payload. -/
lemma integrate_step (now : DateStr) (d : KeapData) (s : Crm) (c : Contact)
    (hcs : s.contacts = [c]) (he : c.email = d.email) :
    ∃ tg, ((integrateWithKeap now d s).1).contacts =
      [{ c with givenName := d.firstName, familyName := d.lastName, email := d.email,
                customFields := applyFields (webhookCustomFields now d (some c)) c.customFields,
                tags := tg }] := by
  have hfind : findContact s d.email = some c := by
    simp [findContact, hcs, List.find?, he]
  have hupd : (updateContactFull s c.id d.firstName d.lastName d.email
      (webhookCustomFields now d (some c))).contacts =
      [{ c with givenName := d.firstName, familyName := d.lastName, email := d.email,
                customFields := applyFields (webhookCustomFields now d (some c)) c.customFields }] := by
    simp [updateContactFull, hcs]
  obtain ⟨tg, htg⟩ := applyTags_singleton c.id
    (webhookTags true d.cartItems d.hasPreOrder now) _ _ hupd
  refine ⟨tg, ?_⟩
  simp only [integrateWithKeap, hfind, Option.isSome_some]
  exact htg

/-- One webhook sync against a CRM with no contacts: the engine creates
the contact with the new-contact payload. -/
lemma integrate_create (now : DateStr) (d : KeapData) (s : Crm) (h : s.contacts = []) :
    ∃ tg, ((integrateWithKeap now d s).1).contacts =
      [{ id := s.nextContactId, email := d.email, givenName := d.firstName,
          familyName := d.lastName,
          customFields := applyFields (webhookCustomFields now d none) (fun _ => Content.empty),
          tags := tg }] := by
  have hfind : findContact s d.email = none := by
    simp [findContact, h]
  have hcrt : (createContact s d.firstName d.lastName d.email
      (webhookCustomFields now d none)).1.contacts =
      [{ id := s.nextContactId, email := d.email, givenName := d.firstName,
          familyName := d.lastName,
          customFields := applyFields (webhookCustomFields now d none) (fun _ => Content.empty),
          tags := [] }] := by
    simp [createContact, h]
  obtain ⟨tg, htg⟩ := applyTags_singleton (createContact s d.firstName d.lastName d.email
    (webhookCustomFields now d none)).2 (webhookTags false d.cartItems d.hasPreOrder now) _ _ hcrt
  refine ⟨tg, ?_⟩
  simp only [integrateWithKeap, hfind, Option.isSome_none]
  exact htg

/-- Total-spent invariant: webhook syncs for one email, starting from a
CRM holding exactly the matching contact, accumulate the amounts onto the
stored total. -/
lemma syncSeq_total_inv (now : DateStr) (e : String) :
    ∀ (ds : List KeapData) (s : Crm) (c : Contact) (t : ℚ),
      s.contacts = [c] → c.email = e →
      c.customFields 327 = Content.num t → isCents t →
      (∀ d ∈ ds, d.email = e) → (∀ d ∈ ds, isCents d.amountPaid) →
      ∃ c2, (syncSeq now s ds).contacts = [c2] ∧ c2.email = e ∧
        c2.customFields 327 = Content.num (t + (ds.map (fun d => d.amountPaid)).sum) := by
  intro ds
  induction ds with
  | nil =>
      intro s c t h1 h2 h3 _ _ _
      exact ⟨c, h1, h2, by simpa using h3⟩
  | cons d rest ih =>
      intro s c t h1 h2 h3 h4 hmails hcents
      have hde : c.email = d.email := by
        rw [h2, hmails d (by simp)]
      obtain ⟨tg, hstep⟩ := integrate_step now d s c h1 hde
      have hmt : webhookMergedTotal d (some c) = t + d.amountPaid := by
        simp [webhookMergedTotal, h3, Content.truthy, Content.parseFloatD]
      have hfix : jsToFixed2 (t + d.amountPaid) = t + d.amountPaid :=
        jsToFixed2_cents (isCents_add h4 (hcents d (by simp)))
      have hf327 : applyFields (webhookCustomFields now d (some c)) c.customFields 327
          = Content.num (t + d.amountPaid) := by
        show Content.num (jsToFixed2 (webhookMergedTotal d (some c)))
          = Content.num (t + d.amountPaid)
        rw [hmt, hfix]
      obtain ⟨c2, hA, hB, hC⟩ := ih ((integrateWithKeap now d s).1)
        { c with givenName := d.firstName, familyName := d.lastName, email := d.email,
                 customFields := applyFields (webhookCustomFields now d (some c)) c.customFields,
                 tags := tg }
        (t + d.amountPaid) hstep (hmails d (by simp)) hf327
        (isCents_add h4 (hcents d (by simp)))
        (fun x hx => hmails x (by simp [hx]))
        (fun x hx => hcents x (by simp [hx]))
      refine ⟨c2, hA, hB, ?_⟩
      rw [hC]
      congr 1
      rw [List.map_cons, List.sum_cons]
      ring

/-- Order-history invariant: webhook syncs for one email, starting from a
CRM holding exactly the matching contact with a non-empty history string,
prepend one entry per sync (newest first). -/
lemma syncSeq_history_inv (now : DateStr) (e : String) :
    ∀ (ds : List KeapData) (s : Crm) (c : Contact) (h : String),
      s.contacts = [c] → c.email = e →
      c.customFields 325 = Content.str h → h ≠ "" →
      (∀ d ∈ ds, d.email = e) →
      ∃ c2, (syncSeq now s ds).contacts = [c2] ∧ c2.email = e ∧
        c2.customFields 325 = Content.str (prependEntries h (ds.map (orderEntry now))) := by
  intro ds
  induction ds with
  | nil =>
      intro s c h h1 h2 h3 _ _
      exact ⟨c, h1, h2, by simpa [prependEntries] using h3⟩
  | cons d rest ih =>
      intro s c h h1 h2 h3 hne hmails
      have hde : c.email = d.email := by
        rw [h2, hmails d (by simp)]
      obtain ⟨tg, hstep⟩ := integrate_step now d s c h1 hde
      have hmh : webhookMergedHistory now d (some c)
          = orderEntry now d ++ historySep ++ h := by
        simp [webhookMergedHistory, h3, Content.truthy, Content.asString, hne]
      have hne2 : orderEntry now d ++ historySep ++ h ≠ "" := by
        apply append_ne_empty_right
        exact hne
      have hf325 : applyFields (webhookCustomFields now d (some c)) c.customFields 325
          = Content.str (orderEntry now d ++ historySep ++ h) := by
        show Content.str (webhookMergedHistory now d (some c))
          = Content.str (orderEntry now d ++ historySep ++ h)
        rw [hmh]
      obtain ⟨c2, hA, hB, hC⟩ := ih ((integrateWithKeap now d s).1)
        { c with givenName := d.firstName, familyName := d.lastName, email := d.email,
                 customFields := applyFields (webhookCustomFields now d (some c)) c.customFields,
                 tags := tg }
        (orderEntry now d ++ historySep ++ h) hstep (hmails d (by simp)) hf325 hne2
        (fun x hx => hmails x (by simp [hx]))
      exact ⟨c2, hA, hB, hC⟩

/-- Prepending entries onto a joined history yields the join of the
reversed entries in front of the old ones. -/
lemma prependEntries_join :
    ∀ (es : List String) (l : List String), l ≠ [] →
      prependEntries (joinEntries l) es = joinEntries (es.reverse ++ l) := by
  intro es
  induction es with
  | nil =>
      intro l _
      simp [prependEntries]
  | cons x xs ih =>
      intro l hl
      have hj : x ++ historySep ++ joinEntries l = joinEntries (x :: l) := by
        cases l with
        | nil => exact absurd rfl hl
        | cons y ys => rfl
      have h1 : prependEntries (joinEntries l) (x :: xs)
          = prependEntries (x ++ historySep ++ joinEntries l) xs := rfl
      rw [h1, hj, ih (x :: l) (by simp)]
      congr 1
      simp

/-! ### Claim C1 -/

/-- Claim C1 (amended).  For the webhook sync engine the claim holds: the
total-spent field written is the existing total (parsed as a decimal,
default 0) plus amountPaid, formatted to 2 decimals (amountPaid alone for
a new contact), and a sequence of webhook syncs with one email leaves
total spent equal to the sum of the amounts.  The backfill's sync copy
however always writes amountPaid alone, never adding the existing total. -/
theorem C1_total_spent :
    (∀ (now : DateStr) (d : KeapData) (c : Contact),
        lookupField (webhookCustomFields now d (some c)) 327
          = some (Content.num (jsToFixed2 ((c.customFields 327).parseFloatD + d.amountPaid)))) ∧
    (∀ (now : DateStr) (d : KeapData),
        lookupField (webhookCustomFields now d none) 327
          = some (Content.num (jsToFixed2 d.amountPaid))) ∧
    (∀ o : OrderData,
        lookupField (backfillCustomFields o) 327
          = some (Content.num (jsToFixed2 o.amountPaid))) ∧
    (∀ (now : DateStr) (ds : List KeapData) (e : String) (s : Crm), s.contacts = [] →
        (∀ d ∈ ds, d.email = e) → (∀ d ∈ ds, isCents d.amountPaid) → ds ≠ [] →
        ∃ c2, findContact (syncSeq now s ds) e = some c2 ∧
          c2.customFields 327 = Content.num ((ds.map (fun d => d.amountPaid)).sum)) := by
  refine ⟨?_, ?_, ?_, ?_⟩
  · intro now d c
    have hmt : webhookMergedTotal d (some c)
        = (c.customFields 327).parseFloatD + d.amountPaid := by
      unfold webhookMergedTotal
      cases hcf : c.customFields 327 with
      | empty => simp [Content.truthy, Content.parseFloatD, hcf]
      | num q => simp [Content.truthy, Content.parseFloatD, hcf]
      | str s2 =>
          by_cases hs : s2 = ""
          · simp [Content.truthy, Content.parseFloatD, hcf, hs]
          · simp [Content.truthy, Content.parseFloatD, hcf, hs]
    have hred : lookupField (webhookCustomFields now d (some c)) 327
        = some (Content.num (jsToFixed2 (webhookMergedTotal d (some c)))) := rfl
    rw [hred, hmt]
  · intro now d
    rfl
  · intro o
    rfl
  · intro now ds e s hs hmails hcents hne
    cases ds with
    | nil => exact absurd rfl hne
    | cons d rest =>
        obtain ⟨tg, hcreate⟩ := integrate_create now d s hs
        have h327 : applyFields (webhookCustomFields now d none) (fun _ => Content.empty) 327
            = Content.num d.amountPaid := by
          show Content.num (jsToFixed2 (webhookMergedTotal d none)) = Content.num d.amountPaid
          rw [show webhookMergedTotal d none = d.amountPaid from rfl,
              jsToFixed2_cents (hcents d (by simp))]
        obtain ⟨c2, hA, hB, hC⟩ := syncSeq_total_inv now e rest
          ((integrateWithKeap now d s).1)
          { id := s.nextContactId, email := d.email, givenName := d.firstName,
            familyName := d.lastName,
            customFields := applyFields (webhookCustomFields now d none) (fun _ => Content.empty),
            tags := tg }
          d.amountPaid hcreate (hmails d (by simp)) h327 (hcents d (by simp))
          (fun x hx => hmails x (by simp [hx]))
          (fun x hx => hcents x (by simp [hx]))
        refine ⟨c2, ?_, ?_⟩
        · show findContact (syncSeq now ((integrateWithKeap now d s).1) rest) e = some c2
          simp [findContact, hA, List.find?, hB]
        · rw [hC]
          congr 1

/-- Witness for C1: two concrete webhook syncs (amounts 10 and 20, same
email, distinct payment ids) leave total spent 30. -/
theorem C1_total_spent_witness :
    ∃ c2, findContact (syncSeq dateW emptyCrm [dW1, dW2]) "a@x" = some c2 ∧
      c2.customFields 327 = Content.num 30 := by
  obtain ⟨c2, h1, h2⟩ := C1_total_spent.2.2.2 dateW [dW1, dW2] "a@x" emptyCrm rfl
    (by intro d hd
        simp only [List.mem_cons, List.not_mem_nil, or_false] at hd
        rcases hd with rfl | rfl
        · rfl
        · rfl)
    (by intro d hd
        simp only [List.mem_cons, List.not_mem_nil, or_false] at hd
        rcases hd with rfl | rfl
        · exact ⟨1000, by norm_num [dW1]⟩
        · exact ⟨2000, by norm_num [dW2, dW1]⟩)
    (by simp)
  refine ⟨c2, h1, ?_⟩
  rw [h2]
  congr 1
  norm_num [dW1, dW2]

/-- Counterexample to C1 as stated: a backfill sync for an email whose
contact already holds total spent 20 writes 10 (the order's amountPaid
alone), not the 30 the claim requires. -/
theorem C1_total_spent_counterexample :
    ((findContact (syncToKeap oY false crmY).1 "b@x").map fun c => c.customFields 327)
      = some (Content.num (jsToFixed2 10))
    ∧ jsToFixed2 (10 : ℚ) = 10 ∧ (10 : ℚ) ≠ 20 + 10 := by
  refine ⟨rfl, jsToFixed2_cents ⟨1000, by norm_num⟩, by norm_num⟩

/-- A string never equals itself with a separator and more appended. -/
lemma ne_self_append_sep (a b : String) : a ≠ a ++ historySep ++ b := by
  intro h
  have hlen := congrArg String.length h
  rw [String.length_append, String.length_append] at hlen
  have hsep : historySep.length = 5 := rfl
  omega

/-! ### Claim C2 -/

/-- Claim C2 (amended).  For the webhook sync engine the claim holds:
syncing R1 then R2 (same email, distinct payment ids) leaves the history
field holding exactly the two entries separator-joined with R2's first,
and in general one entry per synced order, newest first.  The backfill's
sync copy however overwrites history with this order's single entry. -/
theorem C2_order_history :
    (∀ (now : DateStr) (d1 d2 : KeapData) (s : Crm) (e : String),
        s.contacts = [] → d1.email = e → d2.email = e →
        d1.paymentId ≠ d2.paymentId →
        ∃ c2, findContact (syncSeq now s [d1, d2]) e = some c2 ∧
          c2.customFields 325
            = Content.str (joinEntries [orderEntry now d2, orderEntry now d1])) ∧
    (∀ (now : DateStr) (ds : List KeapData) (e : String) (s : Crm),
        s.contacts = [] → ds ≠ [] → (∀ d ∈ ds, d.email = e) →
        List.Pairwise (fun a b => a.paymentId ≠ b.paymentId) ds →
        ∃ c2, findContact (syncSeq now s ds) e = some c2 ∧
          c2.customFields 325
            = Content.str (joinEntries ((ds.map (orderEntry now)).reverse))) ∧
    (∀ o : OrderData,
        lookupField (backfillCustomFields o) 325 = some (Content.str (backfillEntry o))) := by
  have main : ∀ (now : DateStr) (ds : List KeapData) (e : String) (s : Crm),
      s.contacts = [] → ds ≠ [] → (∀ d ∈ ds, d.email = e) →
      List.Pairwise (fun a b => a.paymentId ≠ b.paymentId) ds →
      ∃ c2, findContact (syncSeq now s ds) e = some c2 ∧
        c2.customFields 325
          = Content.str (joinEntries ((ds.map (orderEntry now)).reverse)) := by
    intro now ds e s hs hne hmails _hpw
    cases ds with
    | nil => exact absurd rfl hne
    | cons d rest =>
        obtain ⟨tg, hcreate⟩ := integrate_create now d s hs
        have h325 : applyFields (webhookCustomFields now d none) (fun _ => Content.empty) 325
            = Content.str (orderEntry now d) := by
          show Content.str (webhookMergedHistory now d none) = Content.str (orderEntry now d)
          rfl
        obtain ⟨c2, hA, hB, hC⟩ := syncSeq_history_inv now e rest
          ((integrateWithKeap now d s).1)
          { id := s.nextContactId, email := d.email, givenName := d.firstName,
            familyName := d.lastName,
            customFields := applyFields (webhookCustomFields now d none) (fun _ => Content.empty),
            tags := tg }
          (orderEntry now d) hcreate (hmails d (by simp)) h325 (orderEntry_ne_empty now d)
          (fun x hx => hmails x (by simp [hx]))
        refine ⟨c2, ?_, ?_⟩
        · show findContact (syncSeq now ((integrateWithKeap now d s).1) rest) e = some c2
          simp [findContact, hA, List.find?, hB]
        · rw [hC]
          congr 1
          have hj : orderEntry now d = joinEntries [orderEntry now d] := rfl
          rw [hj, prependEntries_join (rest.map (orderEntry now)) [orderEntry now d]
              (by simp)]
          congr 1
          simp
  refine ⟨?_, main, ?_⟩
  · intro now d1 d2 s e hs h1 h2 hpay
    obtain ⟨c2, hA, hB⟩ := main now [d1, d2] e s hs (by simp)
      (by intro d hd
          simp only [List.mem_cons, List.not_mem_nil, or_false] at hd
          rcases hd with rfl | rfl
          · exact h1
          · exact h2)
      (by simp [hpay])
    refine ⟨c2, hA, ?_⟩
    rw [hB]
    rfl
  · intro o
    rfl

/-- Witness for C2: two concrete webhook syncs leave history holding
exactly the two entries, newest first. -/
theorem C2_order_history_witness :
    ∃ c2, findContact (syncSeq dateW emptyCrm [dW1, dW2]) "a@x" = some c2 ∧
      c2.customFields 325
        = Content.str (joinEntries [orderEntry dateW dW2, orderEntry dateW dW1]) :=
  C2_order_history.1 dateW dW1 dW2 emptyCrm "a@x" rfl rfl rfl (by decide)

/-- Counterexample to C2 as stated: two backfill syncs for the same email
with distinct payment ids leave history holding only the second order's
entry, not the two separator-joined entries the claim requires. -/
theorem C2_order_history_counterexample :
    ((findContact crmX2 "c@x").map fun c => c.customFields 325)
      = some (Content.str (backfillEntry oX2)) ∧
    backfillEntry oX2 ≠ joinEntries [backfillEntry oX2, backfillEntry oX1] := by
  refine ⟨rfl, ?_⟩
  have hjoin : joinEntries [backfillEntry oX2, backfillEntry oX1]
      = backfillEntry oX2 ++ historySep ++ backfillEntry oX1 := rfl
  rw [hjoin]
  exact ne_self_append_sep (backfillEntry oX2) (backfillEntry oX1)

/-! ### Claim C3 -/

/-- Claim C3 (confirmed): a processed session whose customer email matches
a contact with truthy payment-id field 311 is counted as skipped and
triggers no sync and no CRM write, for either dry-run value. -/
theorem C3_backfill_guard :
    ∀ (dryRun : Bool) (crm : Crm) (r : BackfillResults) (s : StripeSession)
      (email : String) (c : Contact),
      s.retrieveFails = false → s.customerEmail = some email →
      findContact crm email = some c → (c.customFields 311).truthy = true →
      processSession dryRun (crm, r) s
        = (crm, { r with processed := r.processed + 1,
                         skipped := r.skipped + 1,
                         details := r.details ++ [(s.id, "skipped")] }) := by
  intro dryRun crm r s email c h1 h2 h3 h4
  simp [processSession, h1, h2, h3, hasExistingOrderData, h4]

/-- Witness for C3: a concrete session whose contact has payment-id data
is skipped with no state change, in dry-run and in live mode alike. -/
theorem C3_backfill_guard_witness :
    processSession true (crmP, initialResults) sessW
      = (crmP, { initialResults with processed := initialResults.processed + 1,
                                     skipped := initialResults.skipped + 1,
                                     details := initialResults.details ++ [(sessW.id, "skipped")] }) ∧
    processSession false (crmP, initialResults) sessW
      = (crmP, { initialResults with processed := initialResults.processed + 1,
                                     skipped := initialResults.skipped + 1,
                                     details := initialResults.details ++ [(sessW.id, "skipped")] }) :=
  ⟨C3_backfill_guard true crmP initialResults sessW "e@x" cP rfl rfl rfl rfl,
   C3_backfill_guard false crmP initialResults sessW "e@x" cP rfl rfl rfl rfl⟩

/-! ### Claim C4 -/

/-- One dry-run loop iteration leaves the CRM state untouched. -/
lemma processSession_dry_run_crm (s : StripeSession) (st : Crm × BackfillResults) :
    (processSession true st s).1 = st.1 := by
  rcases st with ⟨crm0, r0⟩
  cases hf : s.retrieveFails
  · cases he : s.customerEmail with
    | none => simp [processSession, hf, he]
    | some email0 =>
        cases hfc : findContact crm0 email0 with
        | none => simp [processSession, hf, he, hfc]
        | some c =>
            cases hod : hasExistingOrderData c
            · simp [processSession, hf, he, hfc, hod]
            · simp [processSession, hf, he, hfc, hod]
  · simp [processSession, hf]

/-- Claim C4 (confirmed): whenever the request's dryRun value is anything
but the literal false (including absent), the run is a dry run and the
backfill performs zero CRM writes: the provider state is unchanged, so no
contact is created or updated and no tag is created, applied or removed. -/
theorem C4_dry_run_no_writes :
    ∀ (v : DryRunVal) (sessions : List StripeSession) (crm : Crm),
      v ≠ DryRunVal.jfalse →
      decideDryRun v = true ∧ (runBackfill v sessions crm).1 = crm := by
  intro v sessions crm hv
  have hdr : decideDryRun v = true := by
    cases v
    · exact absurd rfl hv
    · rfl
    · rfl
    · rfl
  refine ⟨hdr, ?_⟩
  have main : ∀ (ss : List StripeSession) (st : Crm × BackfillResults),
      (ss.foldl (processSession true) st).1 = st.1 := by
    intro ss
    induction ss with
    | nil => intro st; rfl
    | cons s rest ih =>
        intro st
        rw [List.foldl_cons, ih, processSession_dry_run_crm s st]
  show (sessions.foldl (processSession (decideDryRun v)) (crm, initialResults)).1 = crm
  rw [hdr]
  exact main sessions (crm, initialResults)

/-- Witness for C4: a backfill with dryRun absent over a session that
would sync leaves the CRM state exactly as it was. -/
theorem C4_dry_run_no_writes_witness :
    decideDryRun DryRunVal.absent = true ∧
    (runBackfill DryRunVal.absent [sessW2] emptyCrm).1 = emptyCrm :=
  C4_dry_run_no_writes DryRunVal.absent [sessW2] emptyCrm (by decide)

/-! ### Claim C9 -/

/-- One loop iteration adds one to processed and exactly one to the
synced, skipped or errors bucket. -/
lemma processSession_buckets (dr : Bool) (st : Crm × BackfillResults) (s : StripeSession) :
    (processSession dr st s).2.processed = st.2.processed + 1 ∧
    (processSession dr st s).2.synced + (processSession dr st s).2.skipped
        + (processSession dr st s).2.errors.length
      = st.2.synced + st.2.skipped + st.2.errors.length + 1 := by
  rcases st with ⟨crm0, r0⟩
  cases hf : s.retrieveFails
  · cases he : s.customerEmail with
    | none =>
        simp [processSession, hf, he]
        omega
    | some email0 =>
        cases hfc : findContact crm0 email0 with
        | none =>
            cases dr
            · cases hsf : s.syncFails
              · simp [processSession, hf, he, hfc, hsf]
                omega
              · simp [processSession, hf, he, hfc, hsf]
                omega
            · simp [processSession, hf, he, hfc]
              omega
        | some c =>
            cases hod : hasExistingOrderData c
            · cases dr
              · cases hsf : s.syncFails
                · simp [processSession, hf, he, hfc, hod, hsf]
                  omega
                · simp [processSession, hf, he, hfc, hod, hsf]
                  omega
              · simp [processSession, hf, he, hfc, hod]
                omega
            · simp [processSession, hf, he, hfc, hod]
              omega
  · simp [processSession, hf]
    omega

/-- Claim C9 (confirmed): the backfill report satisfies processed =
sessions seen, and processed = synced + skipped + number of error records
(every session lands in exactly one bucket; no failure aborts the rest). -/
theorem C9_report_invariant :
    ∀ (v : DryRunVal) (sessions : List StripeSession) (crm : Crm),
      (runBackfill v sessions crm).2.processed = sessions.length ∧
      (runBackfill v sessions crm).2.processed
        = (runBackfill v sessions crm).2.synced + (runBackfill v sessions crm).2.skipped
          + (runBackfill v sessions crm).2.errors.length := by
  intro v sessions crm
  have main : ∀ (dr : Bool) (ss : List StripeSession) (st : Crm × BackfillResults),
      (ss.foldl (processSession dr) st).2.processed = st.2.processed + ss.length ∧
      (ss.foldl (processSession dr) st).2.synced + (ss.foldl (processSession dr) st).2.skipped
          + (ss.foldl (processSession dr) st).2.errors.length
        = st.2.synced + st.2.skipped + st.2.errors.length + ss.length := by
    intro dr ss
    induction ss with
    | nil => intro st; simp
    | cons s rest ih =>
        intro st
        have hstep := processSession_buckets dr st s
        have hrest := ih (processSession dr st s)
        rw [List.foldl_cons]
        refine ⟨?_, ?_⟩
        · rw [hrest.1, hstep.1, List.length_cons]
          omega
        · rw [hrest.2, hstep.2, List.length_cons]
          omega
  have h := main (decideDryRun v) sessions (crm, initialResults)
  refine ⟨?_, ?_⟩
  · rw [show (runBackfill v sessions crm).2
        = (sessions.foldl (processSession (decideDryRun v)) (crm, initialResults)).2 from rfl,
        h.1]
    simp [initialResults]
  · rw [show (runBackfill v sessions crm).2
        = (sessions.foldl (processSession (decideDryRun v)) (crm, initialResults)).2 from rfl,
        h.1, h.2]
    simp [initialResults]

/-! ### Claim C5 -/

/-- Claim C5 (confirmed): the derived fulfillment status is a pure
function of the two shipped flags and hasPreOrder exactly as claimed, and
a leg counts as shipped iff its tracking-number field (315 cards, 319
book) has non-empty content. -/
theorem C5_fulfillment_status :
    (∀ pre cards book : Bool,
        (cards = false → fulfillmentStatus pre cards book = "pending") ∧
        (pre = true →
          ((fulfillmentStatus pre cards book = "fulfilled") ↔ cards = true ∧ book = true) ∧
          ((fulfillmentStatus pre cards book = "partial") ↔ cards = true ∧ book = false)) ∧
        (pre = false → ((fulfillmentStatus pre cards book = "fulfilled") ↔ cards = true))) ∧
    (∀ (crm : Crm) (email : String) (c : Contact), findContact crm email = some c →
        (getKeapFulfillmentStatus crm email).found = true ∧
        (getKeapFulfillmentStatus crm email).cardsShipped = (c.customFields 315).truthy ∧
        (getKeapFulfillmentStatus crm email).bookShipped = (c.customFields 319).truthy) := by
  constructor
  · intro pre cards book
    cases pre <;> cases cards <;> cases book <;>
      exact ⟨by intro h; simp_all [fulfillmentStatus],
             by intro h; simp_all [fulfillmentStatus],
             by intro h; simp_all [fulfillmentStatus]⟩
  · intro crm email c h
    simp [getKeapFulfillmentStatus, h]

/-- Witness for C5: the concrete contact with only cards tracking set is
found with cardsShipped true and bookShipped false, and the pre-order
status function yields partial there. -/
theorem C5_fulfillment_status_witness :
    ((getKeapFulfillmentStatus crmT "g@x").found = true ∧
     (getKeapFulfillmentStatus crmT "g@x").cardsShipped = (cT.customFields 315).truthy ∧
     (getKeapFulfillmentStatus crmT "g@x").bookShipped = (cT.customFields 319).truthy) ∧
    fulfillmentStatus true true false = "partial" :=
  ⟨C5_fulfillment_status.2 crmT "g@x" cT rfl,
   ((C5_fulfillment_status.1 true true false).2.1 rfl).2.mpr ⟨rfl, rfl⟩⟩

/-! ### Claim C6 -/

/-- Membership in the per-item product tags: exactly the two known
product ids contribute their tags; any other id contributes nothing. -/
lemma mem_productTagsOf (items : List CartItem) (t : String) :
    t ∈ productTagsOf items ↔
      ∃ it ∈ items,
        (it.productId = "cards-only" ∧ t = "Destiny Cards - Cards Only") ∨
        (it.productId = "cards-book-bundle" ∧ t = "Destiny Cards - Cards + Book Bundle") := by
  unfold productTagsOf
  rw [List.mem_flatMap]
  constructor
  · rintro ⟨it, hit, hmem⟩
    refine ⟨it, hit, ?_⟩
    by_cases h1 : it.productId = "cards-only"
    · left
      exact ⟨h1, by simpa [h1] using hmem⟩
    · by_cases h2 : it.productId = "cards-book-bundle"
      · right
        exact ⟨h2, by simpa [h1, h2] using hmem⟩
      · simp [h1, h2] at hmem
  · rintro ⟨it, hit, (⟨h1, rfl⟩ | ⟨h2, rfl⟩)⟩
    · exact ⟨it, hit, by simp [h1]⟩
    · refine ⟨it, hit, ?_⟩
      have hne : it.productId ≠ "cards-only" := by
        rw [h2]
        decide
      simp [hne, h2]

/-- Claim C6 (amended).  The webhook sync engine computes exactly the
claimed tag set: three base tags, one tag per cart item with a known
product id, the two pre-order tags when hasPreOrder, the repeat-customer
tag when the contact already existed, and the month/year tag.  The
backfill's sync copy computes the same set except that it never includes
the repeat-customer tag. -/
theorem C6_tag_set :
    (∀ (isReturning : Bool) (items : List CartItem) (pre : Bool) (now : DateStr) (t : String),
        t ∈ webhookTags isReturning items pre now ↔
          (t = "Destiny Cards - Order Received" ∨
           t = "Destiny Cards - 1st Edition" ∨
           t = "Destiny Cards - Awaiting Shipment" ∨
           (isReturning = true ∧ t = "Destiny Cards - Repeat Customer") ∨
           (∃ it ∈ items,
             (it.productId = "cards-only" ∧ t = "Destiny Cards - Cards Only") ∨
             (it.productId = "cards-book-bundle" ∧ t = "Destiny Cards - Cards + Book Bundle")) ∨
           (pre = true ∧ (t = "Destiny Cards - Pre-Order (Book Ships March 2026)" ∨
             t = "Destiny Cards - Pending Book Shipment")) ∨
           t = "Destiny Cards - " ++ now.monthYear)) ∧
    (∀ (o : OrderData) (t : String),
        t ∈ backfillTags o ↔
          (t = "Destiny Cards - Order Received" ∨
           t = "Destiny Cards - 1st Edition" ∨
           t = "Destiny Cards - Awaiting Shipment" ∨
           (∃ it ∈ o.cartItems,
             (it.productId = "cards-only" ∧ t = "Destiny Cards - Cards Only") ∨
             (it.productId = "cards-book-bundle" ∧ t = "Destiny Cards - Cards + Book Bundle")) ∨
           (o.hasPreOrder = true ∧ (t = "Destiny Cards - Pre-Order (Book Ships March 2026)" ∨
             t = "Destiny Cards - Pending Book Shipment")) ∨
           t = "Destiny Cards - " ++ o.created.monthYear)) := by
  constructor
  · intro isReturning items pre now t
    cases isReturning <;> cases pre <;>
      simp [webhookTags, List.mem_append, mem_productTagsOf, or_assoc, or_left_comm]
  · intro o t
    cases hpre : o.hasPreOrder <;>
      simp [backfillTags, List.mem_append, mem_productTagsOf, hpre, or_assoc, or_left_comm]

/-- Counterexample to C6 as stated: a backfill sync for an email whose
contact already existed applies no repeat-customer tag. -/
theorem C6_tag_set_counterexample :
    (findContact crmZ "d@x").isSome = true ∧
    ((findContact (syncToKeap oZ false crmZ).1 "d@x").map fun c => c.tags)
      = some [ "Destiny Cards - Order Received", "Destiny Cards - 1st Edition",
               "Destiny Cards - Awaiting Shipment", "Destiny Cards - October 2025" ] ∧
    "Destiny Cards - Repeat Customer"
      ∉ [ "Destiny Cards - Order Received", "Destiny Cards - 1st Edition",
          "Destiny Cards - Awaiting Shipment", "Destiny Cards - October 2025" ] := by
  refine ⟨rfl, ?_, by decide⟩
  rfl

/-! ### Claim C7 -/

/-- Claim C7 (confirmed): updateTracking for an email matching no contact
fails with the not-found error and performs no writes: the CRM state is
returned unchanged (no field update, no tag create/apply/remove). -/
theorem C7_tracking_not_found :
    ∀ (crm : Crm) (today email trackingNumber shipmentType : String),
      findContact crm email = none →
      updateTrackingInKeap crm today email trackingNumber shipmentType
        = (Except.error ("No contact found with email: " ++ email), crm) := by
  intro crm today email trackingNumber shipmentType h
  simp [updateTrackingInKeap, h]

/-- Witness for C7: on an empty CRM the concrete call errors and leaves
the state untouched. -/
theorem C7_tracking_not_found_witness :
    updateTrackingInKeap emptyCrm "2025-10-12" "x@x" "TRK" "cards"
      = (Except.error ("No contact found with email: " ++ "x@x"), emptyCrm) :=
  C7_tracking_not_found emptyCrm "2025-10-12" "x@x" "TRK" "cards" rfl

/-! ### Claim C8 -/

/-- Claim C8 (code bug): the backfill's findKeapContact, given a non-2xx
non-429 response (here HTTP 500), returns null - i.e. reports that no
contact exists - instead of failing with a CRM-error carrying the status;
the tag path by contrast does fail with the status as the claim says. -/
theorem C8_find_contact_error_eval :
    findKeapContactHttp [{ status := 500, contacts := [] }] = some none ∧
    httpOk 500 = false ∧ (500 : ℕ) ≠ 429 ∧
    getOrCreateTagHttp { status := 500, tags := [] } { status := 200, newId := 7 }
      = Except.error 500 := by
  refine ⟨rfl, by decide, by decide, rfl⟩

/-! ### Claim C10 -/

/-- Removing a tag only changes the tags of a lone contact. -/
lemma removeTag_singleton (cid : ℕ) (name : String) (s : Crm) (c : Contact)
    (h : s.contacts = [c]) :
    ∃ tg, (removeTagFromContactName s cid name).contacts = [{ c with tags := tg }] := by
  refine ⟨if c.id == cid then c.tags.erase name else c.tags, ?_⟩
  simp only [removeTagFromContactName, h, List.map_cons, List.map_nil]
  cases hid : (c.id == cid) with
  | false => simp [hid]
  | true => simp [hid]

/-- Claim C10 (confirmed): the tracking-update payload holds exactly the
requested leg's two fields (cards 315/317, book 319/321), so every other
custom field - the other leg's pair and all order fields - is unchanged
by the update. -/
theorem C10_tracking_payload_frame :
    (∀ trackingNumber today : String,
        trackingCustomFields "cards" trackingNumber today
          = [ (315, Content.str trackingNumber), (317, Content.str today) ] ∧
        trackingCustomFields "book" trackingNumber today
          = [ (319, Content.str trackingNumber), (321, Content.str today) ]) ∧
    (∀ (trackingNumber today : String) (cf : ℕ → Content) (i : ℕ),
        i ≠ 315 → i ≠ 317 →
        applyFields (trackingCustomFields "cards" trackingNumber today) cf i = cf i) ∧
    (∀ (trackingNumber today : String) (cf : ℕ → Content) (i : ℕ),
        i ≠ 319 → i ≠ 321 →
        applyFields (trackingCustomFields "book" trackingNumber today) cf i = cf i) ∧
    (∀ (today email trackingNumber : String) (s : Crm) (c : Contact),
        s.contacts = [c] → c.email = email →
        ∃ c2, (updateTrackingInKeap s today email trackingNumber "cards").2.contacts = [c2] ∧
          (∀ i, i ≠ 315 → i ≠ 317 → c2.customFields i = c.customFields i) ∧
          c2.customFields 315 = Content.str trackingNumber ∧
          c2.customFields 317 = Content.str today) := by
  refine ⟨?_, ?_, ?_, ?_⟩
  · intro trackingNumber today
    exact ⟨rfl, rfl⟩
  · intro trackingNumber today cf i h1 h2
    have e1 : ((315 : ℕ) == i) = false := beq_eq_false_iff_ne.mpr (Ne.symm h1)
    have e2 : ((317 : ℕ) == i) = false := beq_eq_false_iff_ne.mpr (Ne.symm h2)
    simp [applyFields, trackingCustomFields, List.find?, e1, e2]
  · intro trackingNumber today cf i h1 h2
    have e1 : ((319 : ℕ) == i) = false := beq_eq_false_iff_ne.mpr (Ne.symm h1)
    have e2 : ((321 : ℕ) == i) = false := beq_eq_false_iff_ne.mpr (Ne.symm h2)
    simp [applyFields, trackingCustomFields, List.find?, e1, e2]
  · intro today email trackingNumber s c hcs he
    have hfind : findContact s email = some c := by
      simp [findContact, hcs, List.find?, he]
    have hupd : (updateContactFields s c.id
        (trackingCustomFields "cards" trackingNumber today)).contacts =
        [{ c with customFields := applyFields (trackingCustomFields "cards" trackingNumber today) c.customFields }] := by
      simp [updateContactFields, hcs]
    obtain ⟨tg1, h1⟩ := applyTags_singleton c.id ["Destiny Cards - Cards Shipped"] _ _ hupd
    have hfinal : ∃ tg2,
        (updateTrackingInKeap s today email trackingNumber "cards").2.contacts =
        [{ c with customFields := applyFields (trackingCustomFields "cards" trackingNumber today) c.customFields, tags := tg2 }] := by
      simp only [updateTrackingInKeap, hfind]
      by_cases hmem : "Destiny Cards - Awaiting Shipment" ∈
          (applyTags (updateContactFields s c.id
            (trackingCustomFields "cards" trackingNumber today)) c.id
            ["Destiny Cards - Cards Shipped"]).tagNames
      · obtain ⟨tg2, h2⟩ := removeTag_singleton c.id "Destiny Cards - Awaiting Shipment"
          (applyTags (updateContactFields s c.id
            (trackingCustomFields "cards" trackingNumber today)) c.id
            ["Destiny Cards - Cards Shipped"]) _ h1
        exact ⟨tg2, by simp [hmem, h2]⟩
      · exact ⟨tg1, by simp [hmem, h1]⟩
    obtain ⟨tg2, h2⟩ := hfinal
    refine ⟨_, h2, ?_, rfl, rfl⟩
    intro i hi1 hi2
    show applyFields (trackingCustomFields "cards" trackingNumber today) c.customFields i
      = c.customFields i
    have e1 : ((315 : ℕ) == i) = false := beq_eq_false_iff_ne.mpr (Ne.symm hi1)
    have e2 : ((317 : ℕ) == i) = false := beq_eq_false_iff_ne.mpr (Ne.symm hi2)
    simp [applyFields, trackingCustomFields, List.find?, e1, e2]

/-- Witness for C10: the concrete cards-leg update on the contact with
book tracking absent leaves every non-cards field unchanged and sets the
two cards fields. -/
theorem C10_tracking_payload_frame_witness :
    ∃ c2, (updateTrackingInKeap crmT "2025-10-12" "g@x" "TRK9" "cards").2.contacts = [c2] ∧
      (∀ i, i ≠ 315 → i ≠ 317 → c2.customFields i = cT.customFields i) ∧
      c2.customFields 315 = Content.str "TRK9" ∧
      c2.customFields 317 = Content.str "2025-10-12" :=
  C10_tracking_payload_frame.2.2.2 "2025-10-12" "g@x" "TRK9" crmT cT rfl rfl
